import Mathlib

/-!
# Timesheet & Billing Reconciliation — verification development

A shallow embedding of the reconciliation engine of `app/main.py`
(timesheet_billing_reconciliation): the calendar engine, leave accrual,
the source-merge/ingestion pipeline, the status derivation state machine,
the reminder ledger and the billing trend projection, together with
theorems checking the specified properties against these definitions.

Modelling conventions:
* Python `float` values are modelled by `PyFloat`: either an exact rational
  (`PyFloat.q`) or `PyFloat.nan`.  IEEE comparison semantics for NaN
  (every comparison involving NaN is false, arithmetic propagates NaN) are
  modelled exactly; rounding of finite float arithmetic is idealised as
  exact rational arithmetic.
* Python `datetime.date` is modelled by `CalDate`, with `weekday`
  computed from the proleptic-Gregorian day number (0001-01-01 = Monday),
  matching `datetime.date.weekday`.
* Spreadsheet cells are modelled by `Cell` (string, number, date, or the
  missing/NaN cell) and rows by association lists keyed on the column
  name, so the column-fallback resolution of `choose_col`,
  `choose_project_code` and the pandas outer merge can be transcribed.
* Database tables are lists of records; SQLAlchemy delete/insert/commit
  becomes functional state passing.  The `Employee` upsert performed
  during ingestion is not modelled: no field of a `ReconEntry` reads the
  employee table, and no claim below depends on it.
-/

/-! ## Calendar engine (`is_weekend`, `expected_hours_for_month`,
`working_days_between`, `working_days_overlap_in_month`) -/

def isLeapYear (y : ℕ) : Bool :=
  (y % 4 == 0 && y % 100 != 0) || (y % 400 == 0)

/-- `calendar.monthrange(year, month)[1]`: number of days of the month. -/
def daysInMonth (y m : ℕ) : ℕ :=
  if m = 2 then (if isLeapYear y then 29 else 28)
  else if m = 4 ∨ m = 6 ∨ m = 9 ∨ m = 11 then 30
  else 31

/-- A Python `datetime.date` value. -/
structure CalDate where
  year : ℕ
  month : ℕ
  day : ℕ
deriving DecidableEq, Repr

/-- Days in the years strictly before `y` (proleptic Gregorian). -/
def daysBeforeYear (y : ℕ) : ℕ :=
  365 * (y - 1) + (y - 1) / 4 + (y - 1) / 400 - (y - 1) / 100

/-- Days in the months of year `y` strictly before month `m`. -/
def daysBeforeMonth (y m : ℕ) : ℕ :=
  ((List.range (m - 1)).map (fun i => daysInMonth y (i + 1))).sum

/-- Proleptic-Gregorian ordinal of a date; `0001-01-01` has ordinal 1
(`datetime.date.toordinal`). -/
def CalDate.ordinal (d : CalDate) : ℕ :=
  daysBeforeYear d.year + daysBeforeMonth d.year d.month + d.day

/-- `datetime.date.weekday`: Monday = 0, …, Sunday = 6. -/
def CalDate.weekday (d : CalDate) : ℕ :=
  (d.ordinal + 6) % 7

/-- `is_weekend(dt)`: `dt.weekday() >= 5`. -/
def is_weekend (d : CalDate) : Bool :=
  d.weekday ≥ 5

/-- Python `date` comparison (lexicographic on (year, month, day)). -/
def CalDate.lt (a b : CalDate) : Bool :=
  a.year < b.year ||
    (a.year == b.year &&
      (a.month < b.month || (a.month == b.month && a.day < b.day)))

def CalDate.le (a b : CalDate) : Bool :=
  a.lt b || a == b

/-- The next calendar day (`d + timedelta(days=1)`). -/
def CalDate.next (d : CalDate) : CalDate :=
  if d.day < daysInMonth d.year d.month then ⟨d.year, d.month, d.day + 1⟩
  else if d.month < 12 then ⟨d.year, d.month + 1, 1⟩
  else ⟨d.year + 1, 1, 1⟩

def firstOfMonth (y m : ℕ) : CalDate := ⟨y, m, 1⟩

def lastOfMonth (y m : ℕ) : CalDate := ⟨y, m, daysInMonth y m⟩

/-- Count of non-weekend days among the `n` consecutive days starting at `d`. -/
def workingDaysFrom : CalDate → ℕ → ℕ
  | _, 0 => 0
  | d, n + 1 => (if is_weekend d then 0 else 1) + workingDaysFrom d.next n

/-- Number of days in the inclusive span `[s, e]` (for `s ≤ e`). -/
def spanDays (s e : CalDate) : ℕ :=
  e.ordinal + 1 - s.ordinal

/-- Working days in `[s, e]`, inclusive, assuming `s ≤ e`. -/
def countWorkingDays (s e : CalDate) : ℕ :=
  workingDaysFrom s (spanDays s e)

/-- `working_days_between(start, end)`: inclusive Mon–Fri count, swapping
the bounds when `end < start`. -/
def working_days_between (start stop : CalDate) : ℕ :=
  let p := if stop.lt start then (stop, start) else (start, stop)
  countWorkingDays p.1 p.2

/-- `working_days_overlap_in_month(start, end, year, month)`. -/
def working_days_overlap_in_month (start stop : CalDate) (year month : ℕ) : ℕ :=
  let p := if stop.lt start then (stop, start) else (start, stop)
  let fom := firstOfMonth year month
  let lom := lastOfMonth year month
  let sc := if fom.lt p.1 then p.1 else fom
  let ec := if lom.lt p.2 then lom else p.2
  if ec.lt sc then 0 else countWorkingDays sc ec

/-! ### Character-level string helpers

Core `String` routines such as `splitOn`, `trim` and the `Nat`/`Rat`
renderers are implemented with well-founded recursion and do not reduce
inside the kernel, so the embedding re-implements the few it needs
structurally over `String.data`; concrete runs of the pipeline can then be
checked by `decide`. -/

def isPySpace (c : Char) : Bool :=
  c = ' ' || c = '\t' || c = '\n' || c = '\r'

/-- Python `str.strip()`. -/
def pyStrip (s : String) : String :=
  String.mk (((s.data.dropWhile isPySpace).reverse.dropWhile isPySpace).reverse)

def splitOnCharAux (sep : Char) : List Char → List Char → List (List Char)
  | [], acc => [acc.reverse]
  | c :: rest, acc =>
    if c = sep then acc.reverse :: splitOnCharAux sep rest []
    else splitOnCharAux sep rest (c :: acc)

/-- Python `str.split(sep)` for a one-character separator. -/
def pySplitOn (sep : Char) (s : String) : List String :=
  (splitOnCharAux sep s.data []).map String.mk

def digitsToNat (l : List Char) : ℕ :=
  l.foldl (fun n c => n * 10 + (c.toNat - 48)) 0

def natToCharsAux : ℕ → ℕ → List Char → List Char
  | 0, _, acc => acc
  | fuel + 1, n, acc =>
    let d := Char.ofNat (48 + n % 10)
    if n < 10 then d :: acc else natToCharsAux fuel (n / 10) (d :: acc)

/-- Decimal rendering of a natural number. -/
def natToStr (n : ℕ) : String :=
  String.mk (natToCharsAux (n + 1) n [])

/-! ### Holiday parsing (`datetime.date.fromisoformat` on trimmed tokens) -/

def parseNatDigits (s : String) : Option ℕ :=
  if s.data ≠ [] ∧ s.data.all Char.isDigit then some (digitsToNat s.data)
  else none

/-- `datetime.date.fromisoformat`: strict `YYYY-MM-DD` with a validity
check; `none` models the raised `ValueError`. -/
def date_fromisoformat (s : String) : Option CalDate :=
  match pySplitOn '-' s with
  | [ys, ms, ds] =>
    if ys.length = 4 ∧ ms.length = 2 ∧ ds.length = 2 then
      match parseNatDigits ys, parseNatDigits ms, parseNatDigits ds with
      | some y, some m, some d =>
        if 1 ≤ y ∧ y ≤ 9999 ∧ 1 ≤ m ∧ m ≤ 12 ∧ 1 ≤ d ∧ d ≤ daysInMonth y m
        then some ⟨y, m, d⟩ else none
      | _, _, _ => none
    else none
  | _ => none

/-- The holiday set accumulated from a list of already-split tokens: each
token is stripped and parsed; tokens that fail to parse are dropped
(`except Exception: pass`). -/
def holidaySetOfTokens (toks : List String) : List CalDate :=
  toks.foldl (fun hs tok =>
    let t := pyStrip tok
    if t = "" then hs
    else match date_fromisoformat t with
      | some d => d :: hs
      | none => hs) []

/-- Holiday parsing of `expected_hours_for_month`: split the CSV on commas
and accumulate the parseable tokens (the falsy CSV `""`/`None` yields the
empty set). -/
def parseHolidays (csv : String) : List CalDate :=
  if csv = "" then [] else holidaySetOfTokens (pySplitOn ',' csv)

/-- The calendar days of a month, in order. -/
def monthDays (y m : ℕ) : List CalDate :=
  (List.range (daysInMonth y m)).map (fun i => ⟨y, m, i + 1⟩)

/-- `expected_hours_for_month(year, month, holidays_csv)`: every calendar
day of the month contributes 8 hours unless it is a weekend or a parsed
holiday.  A `None` CSV is modelled by `""` (both parse to no holidays). -/
def expected_hours_for_month (year month : ℕ) (holidays_csv : String) : ℚ :=
  let holidays := parseHolidays holidays_csv
  ((monthDays year month).foldl (fun h day =>
      if is_weekend day || holidays.contains day then h else h + 8) (0 : ℕ) : ℕ)

/-! ## Python float model -/

/-- A Python float: an exact rational or NaN.  Finite-precision rounding is
idealised away; NaN ordering/arithmetic follows IEEE-754 as Python does. -/
inductive PyFloat where
  | nan : PyFloat
  | q : ℚ → PyFloat
deriving DecidableEq, Repr

def pyLt : PyFloat → PyFloat → Bool
  | PyFloat.q a, PyFloat.q b => a < b
  | _, _ => false

def pyLe : PyFloat → PyFloat → Bool
  | PyFloat.q a, PyFloat.q b => a ≤ b
  | _, _ => false

def pySub : PyFloat → PyFloat → PyFloat
  | PyFloat.q a, PyFloat.q b => PyFloat.q (a - b)
  | _, _ => PyFloat.nan

def pyAbs : PyFloat → PyFloat
  | PyFloat.nan => PyFloat.nan
  | PyFloat.q a => PyFloat.q |a|

/-- Python `min(a, b)`: `b` if `b < a` else `a` (NaN-position sensitive). -/
def pyMin2 (a b : PyFloat) : PyFloat :=
  if pyLt b a then b else a

/-- Python `min(a, b, c)` (left-to-right fold, as CPython computes it). -/
def pyMin3 (a b c : PyFloat) : PyFloat :=
  pyMin2 (pyMin2 a b) c

/-! ## Status derivation (`status_from` and the overall reconciled status) -/

/-- `status_from(total, submitted)`.  The `float(x or 0)` re-coercions in
the source are the identity on float arguments (NaN is truthy, `0` maps
to `0`). -/
def status_from (total submitted : PyFloat) : String :=
  if pyLe submitted (PyFloat.q 0) then "Not Completed"
  else if pyLt submitted total then "Partial"
  else "Completed"

/-- The overall reconciled status computed inline by `ingest_workbook`
from the two per-source statuses and submitted hours (tolerance 0.01). -/
def overall_status (status_cg status_citi : String)
    (submitted_cg submitted_citi : PyFloat) : String :=
  let tol : PyFloat := PyFloat.q (1 / 100)
  let diff := pyAbs (pySub submitted_cg submitted_citi)
  if pyLe submitted_cg tol && pyLe submitted_citi tol then "Not Completed"
  else if pyLt tol diff then "Mismatch"
  else if status_cg == "Completed" && status_citi == "Completed" then "Completed"
  else "Partial"

/-! ## Leave accrual (`approved_timeoff_hours_for_month`) -/

/-- One `time_off` row (fields not read by the engine are omitted). -/
structure TimeOff where
  citi_email : String
  start_date : CalDate
  end_date : CalDate
  days : ℚ
  status : String
deriving DecidableEq, Repr

def HOURS_PER_DAY : ℚ := 8

/-- The SQL filter of `approved_timeoff_hours_for_month`: same email,
status `Approved`, `start_date <= last_of_month`, `end_date >= first_of_month`
(for well-formed requests this is exactly "the interval intersects the
month"). -/
def timeoffSelected (email : String) (y m : ℕ) (t : TimeOff) : Bool :=
  t.citi_email == email && t.status == "Approved" &&
    t.start_date.le (lastOfMonth y m) && (firstOfMonth y m).le t.end_date

/-- `approved_timeoff_hours_for_month(db, citi_email, year, month)`. -/
def approved_timeoff_hours_for_month (tdb : List TimeOff) (citi_email : String)
    (year month : ℕ) : ℚ :=
  if citi_email = "" then 0
  else (tdb.filter (timeoffSelected citi_email year month)).foldl
    (fun acc t =>
      acc + (working_days_overlap_in_month t.start_date t.end_date year month : ℚ)
        * HOURS_PER_DAY) 0

/-! ## Tabular cells and rows -/

/-- A spreadsheet / merged-frame cell: missing (NaN), a string, a number,
or a date. -/
inductive Cell where
  | na : Cell
  | strC : String → Cell
  | numC : ℚ → Cell
  | dateC : CalDate → Cell
deriving DecidableEq, Repr

/-- A row of a (merged) frame: association list from column name to cell. -/
abbrev Row := List (String × Cell)

def rowGet : Row → String → Option Cell
  | [], _ => none
  | (k, v) :: rest, n => if k = n then some v else rowGet rest n

/-- Python truthiness of a cell value (`""` and `0` are falsy; NaN is
truthy). -/
def cellFalsy : Cell → Bool
  | Cell.strC s => s = ""
  | Cell.numC q => q = 0
  | _ => false

def pad2 (n : ℕ) : String :=
  if n < 10 then "0" ++ natToStr n else natToStr n

def pad4 (n : ℕ) : String :=
  if n < 10 then "000" ++ natToStr n
  else if n < 100 then "00" ++ natToStr n
  else if n < 1000 then "0" ++ natToStr n
  else natToStr n

def isoOfDate (d : CalDate) : String :=
  pad4 d.year ++ "-" ++ pad2 d.month ++ "-" ++ pad2 d.day

/-- Python `str()` of a float value (decimal idealisation: integral values
render as `"n.0"` as Python does; non-integral rationals keep a
numerator/denominator rendering). -/
def qToStr (q : ℚ) : String :=
  let sign := if q < 0 then "-" else ""
  if q.den = 1 then sign ++ natToStr q.num.natAbs ++ ".0"
  else sign ++ natToStr q.num.natAbs ++ "/" ++ natToStr q.den

/-- Python `str()` of a cell (`str(nan) = "nan"`). -/
def pyCellStr : Cell → String
  | Cell.na => "nan"
  | Cell.strC s => s
  | Cell.numC q => qToStr q
  | Cell.dateC d => isoOfDate d

/-- `str(x or "")` applied to an optional cell (a missing key gives `""`). -/
def pyStrOr (c : Option Cell) : String :=
  match c with
  | none => ""
  | some c => if cellFalsy c then "" else pyCellStr c

/-- Python `float(string)` restricted to plain decimal literals
(`[+-]digits[.digits]`); `none` models the raised `ValueError`. -/
def pyParseFloat (s : String) : Option ℚ :=
  let signed : ℚ × List Char :=
    match (pyStrip s).data with
    | '-' :: rest => (-1, rest)
    | '+' :: rest => (1, rest)
    | l => (1, l)
  match splitOnCharAux '.' signed.2 [] with
  | [i] =>
    if i ≠ [] ∧ i.all Char.isDigit then some (signed.1 * digitsToNat i)
    else none
  | [i, f] =>
    if i = [] then
      if f ≠ [] ∧ f.all Char.isDigit then
        some (signed.1 * (digitsToNat f : ℚ) / 10 ^ f.length)
      else none
    else if f = [] then
      if i.all Char.isDigit then some (signed.1 * digitsToNat i) else none
    else
      if i.all Char.isDigit ∧ f.all Char.isDigit then
        some (signed.1 * ((digitsToNat i : ℚ) + (digitsToNat f : ℚ) / 10 ^ f.length))
      else none
  | _ => none

/-- `float(x or 0)` on an optional cell; `none` models a raised
`ValueError`/`TypeError` (which aborts the whole ingestion). -/
def floatOr0 : Option Cell → Option PyFloat
  | none => some (PyFloat.q 0)
  | some Cell.na => some PyFloat.nan
  | some (Cell.numC q) => some (PyFloat.q q)
  | some (Cell.strC s) =>
    if s = "" then some (PyFloat.q 0) else (pyParseFloat s).map PyFloat.q
  | some (Cell.dateC _) => none

/-- `choose_col(row, *names, default="")`: first present, non-NA cell. -/
def chooseCol (row : Row) : List String → Cell
  | [] => Cell.strC ""
  | n :: rest =>
    match rowGet row n with
    | some c => if c = Cell.na then chooseCol row rest else c
    | none => chooseCol row rest

def projectCodeCandidates : List String :=
  ["Project Code_cg", "Project Code_citi", "Project Code",
   "ProjectCode_cg", "ProjectCode_citi", "ProjectCode",
   "Proj Code_cg", "Proj Code_citi", "Proj Code",
   "Project_cg", "Project_citi", "Project"]

/-- `choose_project_code(row)`: twelve-variant fallback chain, first
non-NA cell whose stripped string form is non-empty; else `UNKNOWN`. -/
def choose_project_code (row : Row) : String :=
  let rec go : List String → String
    | [] => "UNKNOWN"
    | key :: rest =>
      match rowGet row key with
      | some c =>
        if c = Cell.na then go rest
        else
          let val := pyStrip (pyCellStr c)
          if val = "" then go rest else val
      | none => go rest
  go projectCodeCandidates

/-- Python `int()` on a trimmed decimal string; `none` models the raised
`ValueError`. -/
def pyInt (s : String) : Option ℤ :=
  match (pyStrip s).data with
  | '-' :: rest =>
    if rest ≠ [] ∧ rest.all Char.isDigit then some (-(digitsToNat rest : ℤ))
    else none
  | '+' :: rest =>
    if rest ≠ [] ∧ rest.all Char.isDigit then some ((digitsToNat rest : ℤ))
    else none
  | l =>
    if l ≠ [] ∧ l.all Char.isDigit then some ((digitsToNat l : ℤ)) else none

/-- `year, mon = map(int, month_str.split("-"))`; `none` models the raised
exception (caught, row skipped). -/
def parseYM (s : String) : Option (ℤ × ℤ) :=
  match pySplitOn '-' s with
  | [a, b] =>
    match pyInt a, pyInt b with
    | some y, some m => some (y, m)
    | _, _ => none
  | _ => none

/-! ## ReconciliationRecord and per-row ingestion -/

/-- One `recon_entries` row (as built by `ingest_workbook`). -/
structure ReconEntry where
  employee_id : String
  month : String
  name : String
  cg_email : String
  citi_email : String
  region_code : String
  region_name : String
  project_name : String
  project_code : String
  billing_rate : PyFloat
  total_hours_cg : PyFloat
  submitted_hours_cg : PyFloat
  submitted_on_cg : Option String
  status_cg : String
  total_hours_citi : PyFloat
  submitted_hours_citi : PyFloat
  holidays : Option String
  status_citi : String
  expected_hours : PyFloat
  reconciled_hours : PyFloat
  reconciled_status : String
  reminders : ℕ
deriving DecidableEq, Repr

/-- Outcome of the per-row body of the `ingest_workbook` monthly loop:
`skip` models `continue`, `err` models an uncaught exception (aborting the
whole ingestion before its commit), `ok` models `db.add(ReconEntry(...))`. -/
inductive RowStep where
  | skip : RowStep
  | err : RowStep
  | ok : ReconEntry → RowStep
deriving DecidableEq, Repr

/-- The body of the monthly ingestion loop for one merged row
(`ingest_workbook`, the `for _, row in merged.iterrows()` block):
month guard, column-fallback field extraction, float coercions,
holiday/time-off-adjusted expected hours, per-source status, reconciled
hours and the overall status. -/
def processRow (tdb : List TimeOff) (row : Row) : RowStep :=
  let month_str := pyStrOr (rowGet row "Month")
  if month_str = "" ∨ month_str = "nan" then RowStep.skip
  else
    match parseYM month_str with
    | none => RowStep.skip
    | some (yearZ, monZ) =>
      let eid := pyStrOr (some (chooseCol row ["ID_cg", "ID_citi", "ID"]))
      let name := pyStrOr (some (chooseCol row ["Name_cg", "Name_citi", "Name"]))
      let cg_email := pyStrOr (some (chooseCol row ["CG Email_cg", "CG Email"]))
      let citi_email := pyStrOr (some (chooseCol row
        ["Citi Email", "Citi Email_cg", "Citi Email_citi"]))
      let region_code := pyStrOr (some (chooseCol row
        ["Region Code_cg", "Region Code_citi", "Region Code"]))
      let region_name := pyStrOr (some (chooseCol row
        ["Region Name_cg", "Region Name_citi", "Region Name"]))
      let project_name := pyStrOr (some (chooseCol row
        ["Project Name_cg", "Project Name_citi", "Project Name"]))
      let project_code := choose_project_code row
      match floatOr0 (some (chooseCol row
              ["Billing Rate_cg", "Billing Rate_citi", "Billing Rate"])),
            floatOr0 (rowGet row "Total Hours(CG)"),
            floatOr0 (rowGet row "Submitted Hours(CG)"),
            floatOr0 (rowGet row "Total Hours(Citi)"),
            floatOr0 (rowGet row "Submitted Hours(Citi)") with
      | some billing_rate, some total_cg, some submitted_cg,
        some total_citi, some submitted_citi =>
        -- `datetime.date`/`calendar.monthrange` raise on out-of-range
        -- year/month (uncaught: the ingestion aborts with no commit).
        if 1 ≤ yearZ ∧ yearZ ≤ 9999 ∧ 1 ≤ monZ ∧ monZ ≤ 12 then
          let year := yearZ.toNat
          let mon := monZ.toNat
          let submitted_on_cg :=
            match rowGet row "Submitted On" with
            | none => none
            | some Cell.na => none
            | some c => if cellFalsy c then none else some (pyCellStr c)
          let holidays_csv := pyStrOr (rowGet row "Holidays")
          let base_expected := expected_hours_for_month year mon holidays_csv
          let timeoff_hours :=
            approved_timeoff_hours_for_month tdb citi_email year mon
          let effective_expected : ℚ := max (base_expected - timeoff_hours) 0
          let status_cg := status_from (PyFloat.q effective_expected) submitted_cg
          let status_citi := status_from (PyFloat.q effective_expected) submitted_citi
          let reconciled_hours :=
            pyMin3 submitted_cg submitted_citi (PyFloat.q effective_expected)
          let reconciled_status :=
            overall_status status_cg status_citi submitted_cg submitted_citi
          RowStep.ok
            { employee_id := eid
              month := month_str
              name := name
              cg_email := cg_email
              citi_email := citi_email
              region_code := region_code
              region_name := region_name
              project_name := project_name
              project_code := project_code
              billing_rate := billing_rate
              total_hours_cg := total_cg
              submitted_hours_cg := submitted_cg
              submitted_on_cg := submitted_on_cg
              status_cg := status_cg
              total_hours_citi := total_citi
              submitted_hours_citi := submitted_citi
              holidays := if holidays_csv = "" then none else some holidays_csv
              status_citi := status_citi
              expected_hours := PyFloat.q effective_expected
              reconciled_hours := reconciled_hours
              reconciled_status := reconciled_status
              reminders := 0 }
        else RowStep.err
      | _, _, _, _, _ => RowStep.err

/-! ## Workbook model and the outer merge -/

/-- One sheet of the uploaded workbook (`pd.read_excel` result). -/
structure Sheet where
  cols : List String
  rows : List Row
deriving DecidableEq, Repr

structure Workbook where
  sheets : List (String × Sheet)
deriving DecidableEq, Repr

def getSheet (wb : Workbook) (name : String) : Option Sheet :=
  match wb.sheets.find? (fun p => p.1 = name) with
  | some p => some p.2
  | none => none

/-- `df.columns = [c.strip() for c in df.columns]`. -/
def stripSheet (s : Sheet) : Sheet :=
  ⟨s.cols.map pyStrip, s.rows.map (fun r => r.map (fun p => (pyStrip p.1, p.2)))⟩

/-- `df["Month"] = None` when the column is missing.  The `None` cells are
modelled by `Cell.na`: at every use site (dropna, the falsy-string guard)
the two behave identically. -/
def ensureMonth (s : Sheet) : Sheet :=
  if s.cols.contains "Month" then s
  else ⟨s.cols ++ ["Month"], s.rows.map (fun r => r ++ [("Month", Cell.na)])⟩

def mergeKeyCols : List String := ["Citi Email", "Month"]

def nonKeyCols (s : Sheet) : List String :=
  s.cols.filter (fun c => !mergeKeyCols.contains c)

/-- The non-key columns present in both frames; only these receive the
`_cg`/`_citi` merge suffixes. -/
def sharedNonKey (a b : Sheet) : List String :=
  (nonKeyCols a).filter (fun c => (nonKeyCols b).contains c)

def suffixShared (shared : List String) (suf : String) (r : Row) : Row :=
  r.map (fun p => if shared.contains p.1 then (p.1 ++ suf, p.2) else p)

def dropKeyCols (r : Row) : Row :=
  r.filter (fun p => !mergeKeyCols.contains p.1)

def keepKeyCols (r : Row) : Row :=
  r.filter (fun p => mergeKeyCols.contains p.1)

def naRow (cols : List String) : Row :=
  cols.map (fun c => (c, Cell.na))

def suffixedNames (shared : List String) (suf : String) (cols : List String) :
    List String :=
  cols.map (fun c => if shared.contains c then c ++ suf else c)

/-- Join-key cell equality: NaN keys never match (pandas merge semantics). -/
def cellKeyEq : Option Cell → Option Cell → Bool
  | some a, some b => a != Cell.na && b != Cell.na && a == b
  | _, _ => false

def rowsKeyMatch (a b : Row) : Bool :=
  cellKeyEq (rowGet a "Citi Email") (rowGet b "Citi Email") &&
    cellKeyEq (rowGet a "Month") (rowGet b "Month")

/-- `pd.merge(df_cg, df_citi, on=["Citi Email", "Month"], how="outer",
suffixes=("_cg", "_citi"))`: matched pairs (many-to-many), left rows
without a match NA-filled on the right columns, then right-only rows
NA-filled on the left columns. -/
def outerMerge (cg citi : Sheet) : List Row :=
  let shared := sharedNonKey cg citi
  let leftPart := cg.rows.flatMap (fun lr =>
    let ms := citi.rows.filter (fun rr => rowsKeyMatch lr rr)
    if ms.isEmpty then
      [suffixShared shared "_cg" lr ++
        naRow (suffixedNames shared "_citi" (nonKeyCols citi))]
    else
      ms.map (fun rr =>
        suffixShared shared "_cg" lr ++ suffixShared shared "_citi" (dropKeyCols rr)))
  let rightOnly :=
    (citi.rows.filter (fun rr => cg.rows.all (fun lr => !rowsKeyMatch lr rr))).map
      (fun rr =>
        keepKeyCols rr ++ naRow (suffixedNames shared "_cg" (nonKeyCols cg)) ++
          suffixShared shared "_citi" (dropKeyCols rr))
  leftPart ++ rightOnly

/-! ### `sort_values(by=["Citi Email", "Month"])` and
`drop_duplicates(subset=["Citi Email", "Month"], keep="last")` -/

def cellSortRank : Cell → ℕ
  | Cell.numC _ => 0
  | Cell.strC _ => 1
  | Cell.dateC _ => 2
  | Cell.na => 3

/-- Total order on key cells for `sort_values` (NA sorts last, matching
`na_position="last"`; ranking across heterogeneous cell types is a
modelling choice — pandas would raise on incomparable mixtures). -/
def cellCmp : Option Cell → Option Cell → Ordering
  | some (Cell.numC x), some (Cell.numC y) =>
    if x < y then Ordering.lt else if y < x then Ordering.gt else Ordering.eq
  | some (Cell.strC x), some (Cell.strC y) => compare x y
  | some (Cell.dateC x), some (Cell.dateC y) => compare x.ordinal y.ordinal
  | some x, some y => compare (cellSortRank x) (cellSortRank y)
  | some _, none => Ordering.lt
  | none, some _ => Ordering.gt
  | none, none => Ordering.eq

def rowCmp (a b : Row) : Ordering :=
  match cellCmp (rowGet a "Citi Email") (rowGet b "Citi Email") with
  | Ordering.eq => cellCmp (rowGet a "Month") (rowGet b "Month")
  | o => o

def ordIsLE : Ordering → Bool
  | Ordering.gt => false
  | _ => true

def insertSorted (r : Row) : List Row → List Row
  | [] => [r]
  | x :: xs => if ordIsLE (rowCmp r x) then r :: x :: xs else x :: insertSorted r xs

/-- Deterministic sort by (Citi Email, Month).  (pandas' default quicksort
is deterministic but unstable; tie order among duplicate keys does not
affect any property proved below.) -/
def sortRows (rs : List Row) : List Row :=
  rs.foldr insertSorted []

/-- `drop_duplicates` key equality: unlike the merge, NaN keys *do* count
as equal here. -/
def sameMergeKey (a b : Row) : Bool :=
  rowGet a "Citi Email" == rowGet b "Citi Email" &&
    rowGet a "Month" == rowGet b "Month"

/-- `drop_duplicates(subset=["Citi Email", "Month"], keep="last")`. -/
def dropDupKeepLast : List Row → List Row
  | [] => []
  | r :: rs =>
    if rs.any (fun x => sameMergeKey r x) then dropDupKeepLast rs
    else r :: dropDupKeepLast rs

/-- `str(m)` for the non-NA entries of `merged["Month"]`
(`merged["Month"].dropna().astype(str)`). -/
def monthKey (r : Row) : Option String :=
  match rowGet r "Month" with
  | some c => if c = Cell.na then none else some (pyCellStr c)
  | none => none

/-- The de-duplicated set of months present in the merged frame. -/
def monthsOf (rows : List Row) : List String :=
  (rows.filterMap monthKey).dedup

/-- The monthly ingestion loop over all merged rows: `none` models an
uncaught exception in some row (the whole ingestion aborts and nothing is
committed). -/
def processAll (tdb : List TimeOff) : List Row → Option (List ReconEntry)
  | [] => some []
  | r :: rs =>
    match processRow tdb r with
    | RowStep.err => none
    | RowStep.skip => processAll tdb rs
    | RowStep.ok e => (processAll tdb rs).map (fun es => e :: es)

/-! ## Full-workbook ingestion -/

/-- One `cg_daily` / `citi_daily` row. -/
structure DailyRow where
  citi_email : String
  date : CalDate
  hours : PyFloat
  project_code : String
deriving DecidableEq, Repr

/-- The database tables touched by ingestion (the employee table is not
modelled, see the header). -/
structure DBState where
  recon : List ReconEntry
  cg_daily : List DailyRow
  citi_daily : List DailyRow
deriving DecidableEq, Repr

def requiredSheets : List String := ["CG", "CITI", "CG_DAILY", "CITI_DAILY"]

/-- Everything `ingest_workbook` does before its first `db.commit()`:
sheet-presence check, `Citi Email` column check, Month default, outer
merge, sort, de-duplication, and the per-row monthly loop.  The result is
the pair (months present in the merged frame, new `ReconEntry` rows);
`none` models an abort with no commit (an `HTTPException` on a failed
check, or an uncaught per-row exception). -/
def monthlyPhase (wb : Workbook) (tdb : List TimeOff) :
    Option (List String × List ReconEntry) :=
  if requiredSheets.all (fun s => (getSheet wb s).isSome) then
    match getSheet wb "CG", getSheet wb "CITI" with
    | some cgRaw, some citiRaw =>
      let cg := stripSheet cgRaw
      let citi := stripSheet citiRaw
      if cg.cols.contains "Citi Email" && citi.cols.contains "Citi Email" then
        let merged := dropDupKeepLast (sortRows (outerMerge (ensureMonth cg)
          (ensureMonth citi)))
        (processAll tdb merged).map (fun es => (monthsOf merged, es))
      else none
    | _, _ => none
  else none

/-- `ym_of(val)` of the daily phase: the `YYYY-MM` of a parseable date
cell, else `None`.  (`pd.to_datetime` accepts more string formats than the
ISO form modelled here; numeric cells are treated as unparseable.) -/
def ymOfCell : Option Cell → Option String
  | some (Cell.dateC d) => some (pad4 d.year ++ "-" ++ pad2 d.month)
  | some (Cell.strC s) =>
    (date_fromisoformat s).map (fun d => pad4 d.year ++ "-" ++ pad2 d.month)
  | _ => none

/-- `month_to_range(ym)` (total: `none` on an unparseable label, which
cannot arise for the labels produced by `ymOfCell`). -/
def month_to_range (ym : String) : Option (CalDate × CalDate) :=
  match parseYM ym with
  | some (y, m) =>
    if 1 ≤ y ∧ y ≤ 9999 ∧ 1 ≤ m ∧ m ≤ 12 then
      some (firstOfMonth y.toNat m.toNat, lastOfMonth y.toNat m.toNat)
    else none
  | none => none

def dateInYmRange (d : CalDate) (ym : String) : Bool :=
  match month_to_range ym with
  | some p => p.1.le d && d.le p.2
  | none => false

/-- `delete(... .date >= start, .date <= end)` for every month label. -/
def deleteDailyMonths (months : List String) (rows : List DailyRow) :
    List DailyRow :=
  rows.filter (fun r => !months.any (fun ym => dateInYmRange r.date ym))

def dailyPcodeCandidates : List String :=
  ["Project Code", "ProjectCode", "Proj Code", "Project"]

def firstDailyPcode (row : Row) : Option String :=
  let rec go : List String → Option String
    | [] => none
    | key :: rest =>
      match rowGet row key with
      | some c =>
        if c = Cell.na then go rest
        else
          let val := pyStrip (pyCellStr c)
          if val = "" then go rest else some val
      | none => go rest
  go dailyPcodeCandidates

/-- `extract_pcode(row, db, citi_email, date_obj)`: sheet columns first,
then the ReconEntry project code for (email, month), else `UNKNOWN`.
The outer `none` models `scalar_one_or_none` raising on multiple matches
(the caller's `except` then skips the row). -/
def extract_pcode (row : Row) (recon : List ReconEntry) (citi_email : String)
    (d : CalDate) : Option String :=
  match firstDailyPcode row with
  | some v => some v
  | none =>
    let ym := pad4 d.year ++ "-" ++ pad2 d.month
    match recon.filter (fun e => e.citi_email = citi_email ∧ e.month = ym) with
    | [] => some "UNKNOWN"
    | [e] => some (if e.project_code = "" then "UNKNOWN" else e.project_code)
    | _ => none

def parseDateCell : Option Cell → Option CalDate
  | some (Cell.dateC d) => some d
  | some (Cell.strC s) => date_fromisoformat s
  | _ => none

/-- The body of a daily-sheet insert loop iteration; the whole body is
inside `try/except: pass`, so any failure (`none`) silently skips the
row. -/
def dailyRowInsert (recon : List ReconEntry) (r : Row) : Option DailyRow :=
  match rowGet r "Citi Email" with
  | none => none
  | some ec =>
    let c_email := pyCellStr ec
    match parseDateCell (rowGet r "Date") with
    | none => none
    | some d =>
      match extract_pcode r recon c_email d with
      | none => none
      | some pcode =>
        match (match rowGet r "Hours" with
               | none => some (PyFloat.q 0)
               | some c => floatOr0 (some c)) with
        | none => none
        | some h => some ⟨c_email, d, h, pcode⟩

/-- The daily phase after its Date-column accesses succeeded: per-month
delete of both daily tables, then the two insert loops. -/
def ingestDaily (recon : List ReconEntry) (cgd cid : Sheet) (db : DBState) :
    DBState :=
  let months_daily :=
    ((cgd.rows.map (fun r => ymOfCell (rowGet r "Date"))) ++
      (cid.rows.map (fun r => ymOfCell (rowGet r "Date")))).filterMap id |>.dedup
  { db with
    cg_daily := deleteDailyMonths months_daily db.cg_daily ++
      cgd.rows.filterMap (dailyRowInsert recon),
    citi_daily := deleteDailyMonths months_daily db.citi_daily ++
      cid.rows.filterMap (dailyRowInsert recon) }

/-- `ingest_workbook(content, db)` on an already-parsed workbook: returns
the database state the function leaves behind and whether it raised.
The monthly block commits before the daily sheets are read, so a failure
in the daily phase (`df["Date"]` KeyError) leaves the new ReconEntry rows
persisted. -/
def ingest_workbook (wb : Workbook) (tdb : List TimeOff) (db : DBState) :
    DBState × Bool :=
  match monthlyPhase wb tdb with
  | none => (db, true)
  | some (months, newRows) =>
    let recon1 := db.recon.filter (fun e => !months.contains e.month) ++ newRows
    let db1 := { db with recon := recon1 }
    match getSheet wb "CG_DAILY", getSheet wb "CITI_DAILY" with
    | some cgdRaw, some cidRaw =>
      let cgd := stripSheet cgdRaw
      let cid := stripSheet cidRaw
      if cgd.cols.contains "Date" && cid.cols.contains "Date" then
        (ingestDaily recon1 cgd cid db1, false)
      else (db1, true)
    | _, _ => (db1, true)

/-! ## Reminder ledger (`_trigger_reminders_for_month`) -/

def reminderStatuses : List String := ["Partial", "Mismatch", "Not Completed"]

def statusTargeted (e : ReconEntry) : Bool :=
  reminderStatuses.contains e.reconciled_status

/-- The selection of `_trigger_reminders_for_month`: records of the month,
narrowed by the id/email set when `employee_ids` is truthy (Python
truthiness: `None` *and the empty list* both fall to the status filter),
else by the non-compliant statuses. -/
def reminderTargeted (ym : String) (ids : Option (List String))
    (e : ReconEntry) : Bool :=
  e.month == ym &&
    match ids with
    | some l =>
      if l.isEmpty then statusTargeted e
      else l.contains e.employee_id || l.contains e.citi_email
    | none => statusTargeted e

def bumpReminders (e : ReconEntry) : ReconEntry :=
  { e with reminders := e.reminders + 1 }

/-- `_trigger_reminders_for_month(db, ym, employee_ids)`: bump the counter
on every targeted row of the table and return the number of rows updated.
(The in-place mutation of the selected session objects is modelled as a
map over the table.) -/
def trigger_reminders_for_month (recon : List ReconEntry) (ym : String)
    (ids : Option (List String)) : List ReconEntry × ℕ :=
  (recon.map (fun e => if reminderTargeted ym ids e then bumpReminders e else e),
   (recon.filter (reminderTargeted ym ids)).length)

/-! ## Billing trend projection (`billing`, lines 1291–1322) -/

/-- Python `round(x, 2)` under the exact-rational idealisation:
round-half-to-even to a multiple of 1/100. -/
def roundHalfEven (x : ℚ) : ℤ :=
  let f := ⌊x⌋
  let r := x - f
  if r < 1 / 2 then f
  else if 1 / 2 < r then f + 1
  else if f % 2 = 0 then f else f + 1

def pyRound2 (x : ℚ) : ℚ :=
  (roundHalfEven (x * 100) : ℚ) / 100

/-- `xs = list(range(len(month_totals)))` as rationals. -/
def olsXs (n : ℕ) : List ℚ :=
  (List.range n).map (fun i : ℕ => (i : ℚ))

def olsXMean (n : ℕ) : ℚ := (olsXs n).sum / n

def olsYMean (ys : List ℚ) : ℚ := ys.sum / ys.length

/-- `denom = sum((x - x_mean) ** 2 for x in xs)`. -/
def olsDenom (ys : List ℚ) : ℚ :=
  ((olsXs ys.length).map (fun x => (x - olsXMean ys.length) ^ 2)).sum

/-- `slope = sum((x - x_mean) * (y - y_mean) ...) / denom`. -/
def olsSlope (ys : List ℚ) : ℚ :=
  (((olsXs ys.length).zip ys).map
    (fun p => (p.1 - olsXMean ys.length) * (p.2 - olsYMean ys))).sum / olsDenom ys

/-- `intercept = y_mean - slope * x_mean`. -/
def olsIntercept (ys : List ℚ) : ℚ :=
  olsYMean ys - olsSlope ys * olsXMean ys.length

/-- `sum(max(intercept + slope * (len(xs) + i), 0.0) for i in range(12))`:
the next-12-months forecast sum, each forecast clamped at 0. -/
def olsForecastSum (ys : List ℚ) : ℚ :=
  ((List.range 12).map (fun i =>
    max (olsIntercept ys + olsSlope ys * ((ys.length : ℚ) + i)) 0)).sum

/-- The `annual_projection` computation of the `billing` endpoint, as a
function of the current month's total and the ordered series of all
months' totals. -/
def annual_projection (monthly_total : ℚ) (ys : List ℚ) : ℚ :=
  if ys.length ≥ 2 then
    if olsDenom ys > 0 then pyRound2 (olsForecastSum ys)
    else pyRound2 (monthly_total * 12)
  else pyRound2 (monthly_total * 12)

/-! ## Concrete fixtures used by the theorems below -/

def dbEmpty : DBState := ⟨[], [], []⟩

/-- A workbook whose CITI sheet contains an employee absent from the CG
sheet: the outer merge NA-fills that employee's CG columns. -/
def wbNaN : Workbook := ⟨[
  ("CG", ⟨["Citi Email", "Month", "Submitted Hours(CG)"],
    [[("Citi Email", Cell.strC "a@citi"), ("Month", Cell.strC "2025-11"),
      ("Submitted Hours(CG)", Cell.numC 160)]]⟩),
  ("CITI", ⟨["Citi Email", "Month", "Submitted Hours(Citi)"],
    [[("Citi Email", Cell.strC "a@citi"), ("Month", Cell.strC "2025-11"),
      ("Submitted Hours(Citi)", Cell.numC 160)],
     [("Citi Email", Cell.strC "b@citi"), ("Month", Cell.strC "2025-11"),
      ("Submitted Hours(Citi)", Cell.numC 150)]]⟩),
  ("CG_DAILY", ⟨["Citi Email", "Date", "Hours"], []⟩),
  ("CITI_DAILY", ⟨["Citi Email", "Date", "Hours"], []⟩)]⟩

def rowC1 : Row :=
  [("Citi Email", Cell.strC "c1@citi"), ("Month", Cell.strC "2025-11"),
   ("Submitted Hours(CG)", Cell.numC 150), ("Submitted Hours(Citi)", Cell.numC 152)]

def entC1 : ReconEntry :=
  { employee_id := "", month := "2025-11", name := "", cg_email := "",
    citi_email := "c1@citi", region_code := "", region_name := "",
    project_name := "", project_code := "UNKNOWN", billing_rate := PyFloat.q 0,
    total_hours_cg := PyFloat.q 0, submitted_hours_cg := PyFloat.q 150,
    submitted_on_cg := none, status_cg := "Partial",
    total_hours_citi := PyFloat.q 0, submitted_hours_citi := PyFloat.q 152,
    holidays := none, status_citi := "Partial",
    expected_hours := PyFloat.q 160, reconciled_hours := PyFloat.q 150,
    reconciled_status := "Mismatch", reminders := 0 }

def rowC2 : Row :=
  [("Citi Email", Cell.strC "c2@citi"), ("Month", Cell.strC "2025-11"),
   ("Submitted Hours(CG)", Cell.numC 40), ("Submitted Hours(Citi)", Cell.numC 30)]

def entC2 : ReconEntry :=
  { employee_id := "", month := "2025-11", name := "", cg_email := "",
    citi_email := "c2@citi", region_code := "", region_name := "",
    project_name := "", project_code := "UNKNOWN", billing_rate := PyFloat.q 0,
    total_hours_cg := PyFloat.q 0, submitted_hours_cg := PyFloat.q 40,
    submitted_on_cg := none, status_cg := "Partial",
    total_hours_citi := PyFloat.q 0, submitted_hours_citi := PyFloat.q 30,
    holidays := none, status_citi := "Partial",
    expected_hours := PyFloat.q 160, reconciled_hours := PyFloat.q 30,
    reconciled_status := "Mismatch", reminders := 0 }

/-- One Approved leave request covering 3 working days (Mon 10 – Wed 12
Nov 2025) fully inside the target month. -/
def tdbC5 : List TimeOff :=
  [⟨"w@citi", ⟨2025, 11, 10⟩, ⟨2025, 11, 12⟩, 3, "Approved"⟩]

/-- The same interval but still Pending: must contribute zero. -/
def timeoffPending : TimeOff :=
  ⟨"w@citi", ⟨2025, 11, 10⟩, ⟨2025, 11, 12⟩, 3, "Pending"⟩

def rowC5 : Row :=
  [("Citi Email", Cell.strC "w@citi"), ("Month", Cell.strC "2025-11"),
   ("Submitted Hours(CG)", Cell.numC 136), ("Submitted Hours(Citi)", Cell.numC 136)]

def entC5 : ReconEntry :=
  { employee_id := "", month := "2025-11", name := "", cg_email := "",
    citi_email := "w@citi", region_code := "", region_name := "",
    project_name := "", project_code := "UNKNOWN", billing_rate := PyFloat.q 0,
    total_hours_cg := PyFloat.q 0, submitted_hours_cg := PyFloat.q 136,
    submitted_on_cg := none, status_cg := "Completed",
    total_hours_citi := PyFloat.q 0, submitted_hours_citi := PyFloat.q 136,
    holidays := none, status_citi := "Completed",
    expected_hours := PyFloat.q 136, reconciled_hours := PyFloat.q 136,
    reconciled_status := "Completed", reminders := 0 }

/-- Approved leave covering every working day of Nov 2025 (20 days =
160 h), so the effective expected hours are 0. -/
def tdbC10 : List TimeOff :=
  [⟨"z@citi", ⟨2025, 11, 1⟩, ⟨2025, 11, 30⟩, 20, "Approved"⟩]

def rowC10 : Row :=
  [("Citi Email", Cell.strC "z@citi"), ("Month", Cell.strC "2025-11"),
   ("Submitted Hours(CG)", Cell.numC 100), ("Submitted Hours(Citi)", Cell.numC 100)]

def entC10 : ReconEntry :=
  { employee_id := "", month := "2025-11", name := "", cg_email := "",
    citi_email := "z@citi", region_code := "", region_name := "",
    project_name := "", project_code := "UNKNOWN", billing_rate := PyFloat.q 0,
    total_hours_cg := PyFloat.q 0, submitted_hours_cg := PyFloat.q 100,
    submitted_on_cg := none, status_cg := "Completed",
    total_hours_citi := PyFloat.q 0, submitted_hours_citi := PyFloat.q 100,
    holidays := none, status_citi := "Completed",
    expected_hours := PyFloat.q 0, reconciled_hours := PyFloat.q 0,
    reconciled_status := "Completed", reminders := 0 }

/-- Well-formed monthly sheets, but `CG_DAILY` lacks the required `Date`
column: the daily phase raises a `KeyError` only after the monthly commit. -/
def wbNoDate : Workbook := ⟨[
  ("CG", ⟨["Citi Email", "Month", "Submitted Hours(CG)"],
    [[("Citi Email", Cell.strC "a@citi"), ("Month", Cell.strC "2025-11"),
      ("Submitted Hours(CG)", Cell.numC 160)]]⟩),
  ("CITI", ⟨["Citi Email", "Month", "Submitted Hours(Citi)"],
    [[("Citi Email", Cell.strC "a@citi"), ("Month", Cell.strC "2025-11"),
      ("Submitted Hours(Citi)", Cell.numC 160)]]⟩),
  ("CG_DAILY", ⟨["Citi Email", "Hours"], []⟩),
  ("CITI_DAILY", ⟨["Citi Email", "Date", "Hours"], []⟩)]⟩

/-- A workbook missing the `CITI` sheet entirely. -/
def wbNoCITI : Workbook := ⟨[("CG", ⟨["Citi Email"], []⟩)]⟩

/-- All four sheets present, but the CG monthly sheet lacks `Citi Email`. -/
def wbNoMonthlyCE : Workbook := ⟨[
  ("CG", ⟨["Month"], []⟩),
  ("CITI", ⟨["Citi Email", "Month"], []⟩),
  ("CG_DAILY", ⟨["Citi Email", "Date", "Hours"], []⟩),
  ("CITI_DAILY", ⟨["Citi Email", "Date", "Hours"], []⟩)]⟩

/-- `CITI_DAILY` lacks `Citi Email`: its rows are silently skipped by the
per-row `try/except`, with no error at all. -/
def wbNoDailyCE : Workbook := ⟨[
  ("CG", ⟨["Citi Email", "Month"], []⟩),
  ("CITI", ⟨["Citi Email", "Month"], []⟩),
  ("CG_DAILY", ⟨["Citi Email", "Date", "Hours"], []⟩),
  ("CITI_DAILY", ⟨["Date", "Hours"],
    [[("Date", Cell.dateC ⟨2025, 11, 3⟩), ("Hours", Cell.numC 8)]]⟩)]⟩

/-- A Mismatch record of Nov 2025 used for the reminder-ledger claims. -/
def entC9 : ReconEntry :=
  { employee_id := "E1", month := "2025-11", name := "N", cg_email := "",
    citi_email := "a@citi", region_code := "", region_name := "",
    project_name := "", project_code := "P1", billing_rate := PyFloat.q 0,
    total_hours_cg := PyFloat.q 0, submitted_hours_cg := PyFloat.q 40,
    submitted_on_cg := none, status_cg := "Partial",
    total_hours_citi := PyFloat.q 0, submitted_hours_citi := PyFloat.q 30,
    holidays := none, status_citi := "Partial",
    expected_hours := PyFloat.q 160, reconciled_hours := PyFloat.q 30,
    reconciled_status := "Mismatch", reminders := 0 }

/-! ## Helper lemmas -/

theorem pyMin2_q (a b : ℚ) :
    pyMin2 (PyFloat.q a) (PyFloat.q b) = PyFloat.q (min a b) := by
  unfold pyMin2 pyLt
  split_ifs with h
  · simp only [decide_eq_true_eq] at h
    rw [min_eq_right (le_of_lt h)]
  · simp only [decide_eq_true_eq, not_lt] at h
    rw [min_eq_left h]

theorem pyMin3_q (a b c : ℚ) :
    pyMin3 (PyFloat.q a) (PyFloat.q b) (PyFloat.q c) =
      PyFloat.q (min (min a b) c) := by
  unfold pyMin3
  rw [pyMin2_q, pyMin2_q]

/-- The big inversion lemma for the per-row monthly loop: every field of a
produced `ReconEntry` is what the corresponding source line computes. -/
theorem processRow_ok_spec {tdb : List TimeOff} {row : Row} {e : ReconEntry}
    (h : processRow tdb row = RowStep.ok e) :
    e.month = pyStrOr (rowGet row "Month") ∧
    e.month ≠ "" ∧ e.month ≠ "nan" ∧
    e.citi_email =
      pyStrOr (some (chooseCol row ["Citi Email", "Citi Email_cg", "Citi Email_citi"])) ∧
    floatOr0 (rowGet row "Submitted Hours(CG)") = some e.submitted_hours_cg ∧
    floatOr0 (rowGet row "Submitted Hours(Citi)") = some e.submitted_hours_citi ∧
    (∃ y m : ℕ, parseYM e.month = some ((y : ℤ), (m : ℤ)) ∧
      1 ≤ m ∧ m ≤ 12 ∧ 1 ≤ y ∧ y ≤ 9999 ∧
      e.expected_hours = PyFloat.q
        (max (expected_hours_for_month y m (pyStrOr (rowGet row "Holidays")) -
          approved_timeoff_hours_for_month tdb e.citi_email y m) 0)) ∧
    e.status_cg = status_from e.expected_hours e.submitted_hours_cg ∧
    e.status_citi = status_from e.expected_hours e.submitted_hours_citi ∧
    e.reconciled_hours =
      pyMin3 e.submitted_hours_cg e.submitted_hours_citi e.expected_hours ∧
    e.reconciled_status =
      overall_status e.status_cg e.status_citi e.submitted_hours_cg
        e.submitted_hours_citi ∧
    e.reminders = 0 := by
  unfold processRow at h
  dsimp only at h
  split at h
  · exact absurd h (by simp)
  next hguard =>
    split at h
    · exact absurd h (by simp)
    next yz mz hym =>
      split at h
      next hbr htcg hscg htci hsci =>
        split at h
        next hr =>
          obtain ⟨hy1, hy2, hm1, hm2⟩ := hr
          cases h
          push_neg at hguard
          refine ⟨rfl, hguard.1, hguard.2, rfl, hscg, hsci,
            ⟨yz.toNat, mz.toNat, ?_, ?_, ?_, ?_, ?_, rfl⟩, rfl, rfl, rfl, rfl, rfl⟩
          · rw [Int.toNat_of_nonneg (by omega), Int.toNat_of_nonneg (by omega)]
            exact hym
          · omega
          · omega
          · omega
          · omega
        · exact absurd h (by simp)
      next => exact absurd h (by simp)

/-- A row that produces a `ReconEntry` has a non-NA `Month` cell whose
string form is the entry's month, so the month is among the merged
frame's months. -/
theorem processRow_monthKey {tdb : List TimeOff} {row : Row} {e : ReconEntry}
    (h : processRow tdb row = RowStep.ok e) :
    monthKey row = some e.month := by
  obtain ⟨hm, hne, hnan, -⟩ := processRow_ok_spec h
  unfold monthKey
  cases hc : rowGet row "Month" with
  | none =>
    rw [hc] at hm
    simp only [pyStrOr] at hm
    exact absurd hm hne
  | some c =>
    rw [hc] at hm
    simp only [pyStrOr] at hm
    have hcna : c ≠ Cell.na := by
      intro hna
      rw [hna] at hm
      simp only [cellFalsy, pyCellStr] at hm
      exact hnan hm
    dsimp only
    rw [if_neg hcna]
    by_cases hf : cellFalsy c = true
    · rw [if_pos hf] at hm
      exact absurd hm hne
    · rw [if_neg hf] at hm
      rw [hm]

theorem processAll_mem {tdb : List TimeOff} :
    ∀ {rows : List Row} {es : List ReconEntry},
      processAll tdb rows = some es → ∀ {e : ReconEntry}, e ∈ es →
      ∃ r ∈ rows, processRow tdb r = RowStep.ok e := by
  intro rows
  induction rows with
  | nil =>
    intro es h e he
    simp only [processAll] at h
    cases h
    simp at he
  | cons r rs ih =>
    intro es h e he
    simp only [processAll] at h
    split at h
    · exact absurd h (by simp)
    next hskip =>
      obtain ⟨r', hr', hok⟩ := ih h he
      exact ⟨r', List.mem_cons_of_mem _ hr', hok⟩
    next e' hok =>
      cases hes : processAll tdb rs with
      | none => rw [hes] at h; cases h
      | some es' =>
        rw [hes] at h
        simp only [Option.map_some'] at h
        cases h
        rcases List.mem_cons.mp he with rfl | hmem
        · exact ⟨r, List.mem_cons_self _ _, hok⟩
        · obtain ⟨r', hr', hok'⟩ := ih hes hmem
          exact ⟨r', List.mem_cons_of_mem _ hr', hok'⟩

/-- Inversion of the pre-commit monthly phase. -/
theorem monthlyPhase_inv {wb : Workbook} {tdb : List TimeOff}
    {months : List String} {newRows : List ReconEntry}
    (h : monthlyPhase wb tdb = some (months, newRows)) :
    ∃ merged : List Row, processAll tdb merged = some newRows ∧
      months = monthsOf merged := by
  unfold monthlyPhase at h
  split at h
  · split at h
    next cgS citiS hcgS hciS =>
      dsimp only at h
      split at h
      · rw [Option.map_eq_some'] at h
        obtain ⟨es, hp, heq⟩ := h
        obtain ⟨h1, h2⟩ := Prod.mk.injEq .. ▸ heq
        refine ⟨_, ?_, h1.symm⟩
        rw [← h2]
        exact hp
      · cases h
    next => cases h
  · cases h

/-- Every new row produced by a successful monthly phase carries a month
that is in the phase's month set. -/
theorem monthlyPhase_month_mem {wb : Workbook} {tdb : List TimeOff}
    {months : List String} {newRows : List ReconEntry}
    (h : monthlyPhase wb tdb = some (months, newRows)) :
    ∀ e ∈ newRows, e.month ∈ months := by
  obtain ⟨merged, hp, rfl⟩ := monthlyPhase_inv h
  intro e he
  obtain ⟨r, hr, hok⟩ := processAll_mem hp he
  have hk := processRow_monthKey hok
  unfold monthsOf
  rw [List.mem_dedup]
  exact List.mem_filterMap.mpr ⟨r, hr, hk⟩

/-- The recon table `ingest_workbook` leaves behind when the monthly phase
succeeds: per-month delete of the months present, then the new rows. -/
theorem ingest_recon_of_monthly {wb : Workbook} {tdb : List TimeOff}
    {months : List String} {newRows : List ReconEntry} (db : DBState)
    (h : monthlyPhase wb tdb = some (months, newRows)) :
    ((ingest_workbook wb tdb db).1).recon =
      db.recon.filter (fun e => !months.contains e.month) ++ newRows := by
  unfold ingest_workbook
  rw [h]
  dsimp only
  split
  next cgdRaw cidRaw hcg hci =>
    split
    · simp [ingestDaily]
    · rfl
  next => rfl

/-- When the monthly phase aborts, nothing is committed. -/
theorem ingest_of_monthly_none {wb : Workbook} {tdb : List TimeOff}
    (db : DBState) (h : monthlyPhase wb tdb = none) :
    ingest_workbook wb tdb db = (db, true) := by
  unfold ingest_workbook
  rw [h]

/-! ## Claim C6 — ingestion is idempotent on the ReconciliationRecord set -/

/-- Claim C6: workbook ingestion is idempotent on the recon table: because
every month present in the merged data is deleted before the new rows
(whose months all lie in that set, by last-row-wins de-duplicated merge)
are inserted, ingesting the same workbook twice in succession — with the
same time-off table and no intervening writes — leaves exactly the same
`ReconEntry` list as ingesting it once.  This also covers aborted
ingestions, which leave the recon table untouched. -/
theorem c6_ingest_idempotent (wb : Workbook) (tdb : List TimeOff)
    (db : DBState) :
    ((ingest_workbook wb tdb (ingest_workbook wb tdb db).1).1).recon =
      ((ingest_workbook wb tdb db).1).recon := by
  cases hm : monthlyPhase wb tdb with
  | none =>
    rw [ingest_of_monthly_none db hm]
    rw [show (db, true).1 = db from rfl]
    rw [ingest_of_monthly_none db hm]
  | some p =>
    obtain ⟨months, newRows⟩ := p
    have h1 := ingest_recon_of_monthly db hm
    have h2 := ingest_recon_of_monthly ((ingest_workbook wb tdb db).1) hm
    rw [h2, h1]
    have hnil : newRows.filter (fun e => !months.contains e.month) = [] := by
      rw [List.filter_eq_nil_iff]
      intro e he
      simpa using monthlyPhase_month_mem hm e he
    rw [List.filter_append, hnil, List.filter_filter]
    simp only [Bool.and_self, List.append_nil]

/-! ## Claim C1 — reconciled hours are the capped minimum -/

/-- Claim C1 (amended): for every merged monthly row that ingestion turns
into a `ReconEntry`, the stored `reconciled_hours` is the Python
`min(submitted_cg, submitted_citi, effective_expected)` where the stored
`expected_hours` is `max(calendar expected − approved leave, 0)`; and
*whenever both submitted figures are numbers* (not NaN), the consequences
`reconciled ≤ submitted_cg`, `reconciled ≤ submitted_citi` and
`reconciled ≤ expected_hours` hold.  (A row present in only one source
carries NaN submitted hours on the other side, and the inequalities fail
there — see the counterexample.) -/
theorem c1_reconciled_hours (tdb : List TimeOff) (row : Row) (e : ReconEntry)
    (h : processRow tdb row = RowStep.ok e) :
    e.reconciled_hours =
      pyMin3 e.submitted_hours_cg e.submitted_hours_citi e.expected_hours ∧
    (∃ y m : ℕ, parseYM e.month = some ((y : ℤ), (m : ℤ)) ∧
      e.expected_hours = PyFloat.q
        (max (expected_hours_for_month y m (pyStrOr (rowGet row "Holidays")) -
          approved_timeoff_hours_for_month tdb e.citi_email y m) 0)) ∧
    (∀ a b : ℚ, e.submitted_hours_cg = PyFloat.q a →
      e.submitted_hours_citi = PyFloat.q b →
      pyLe e.reconciled_hours e.submitted_hours_cg = true ∧
      pyLe e.reconciled_hours e.submitted_hours_citi = true ∧
      pyLe e.reconciled_hours e.expected_hours = true) := by
  obtain ⟨-, -, -, -, -, -, ⟨y, m, hym, -, -, -, -, hexp⟩, -, -, hrec, -, -⟩ :=
    processRow_ok_spec h
  refine ⟨hrec, ⟨y, m, hym, hexp⟩, ?_⟩
  intro a b ha hb
  rw [hrec, ha, hb, hexp, pyMin3_q]
  unfold pyLe
  refine ⟨?_, ?_, ?_⟩ <;> simp only [decide_eq_true_eq]
  · exact le_trans (min_le_left _ _) (min_le_left _ _)
  · exact le_trans (min_le_left _ _) (min_le_right _ _)
  · exact min_le_right _ _

/-- Claim C1 counterexample: ingesting `wbNaN` (an employee present only
in the CITI sheet) succeeds and persists a record for `b@citi` whose
`reconciled_hours` is NaN, so `reconciled_hours ≤ submitted_hours_cg` is
false on a persisted record — the claimed inequalities do not hold for
every ingested row. -/
theorem c1_counterexample :
    (ingest_workbook wbNaN [] dbEmpty).2 = false ∧
    ((ingest_workbook wbNaN [] dbEmpty).1.recon.any (fun e =>
      e.citi_email == "b@citi" &&
      e.submitted_hours_cg == PyFloat.nan &&
      e.reconciled_hours == PyFloat.nan &&
      !(pyLe e.reconciled_hours e.submitted_hours_cg) &&
      !(pyLe e.reconciled_hours e.expected_hours))) = true := by
  with_unfolding_all decide

/-- Witness for C1 at a concrete row with both sources numeric. -/
theorem c1_witness :
    pyLe entC1.reconciled_hours entC1.submitted_hours_cg = true ∧
    pyLe entC1.reconciled_hours entC1.submitted_hours_citi = true ∧
    pyLe entC1.reconciled_hours entC1.expected_hours = true :=
  (c1_reconciled_hours [] rowC1 entC1 (by with_unfolding_all decide)).2.2 150 152 rfl rfl

/-! ## Claims C2, C3, C10 — the status state machine -/

/-- Normal form of `status_from` on numeric (non-NaN) arguments. -/
theorem status_from_q (t s : ℚ) :
    status_from (PyFloat.q t) (PyFloat.q s) =
      if s ≤ 0 then "Not Completed" else if s < t then "Partial"
      else "Completed" := by
  unfold status_from pyLe pyLt
  simp only [decide_eq_true_eq]

/-- Normal form of the overall status on numeric (non-NaN) submissions. -/
theorem overall_status_q (sa sb : String) (a b : ℚ) :
    overall_status sa sb (PyFloat.q a) (PyFloat.q b) =
      if a ≤ 1 / 100 ∧ b ≤ 1 / 100 then "Not Completed"
      else if 1 / 100 < |a - b| then "Mismatch"
      else if sa = "Completed" ∧ sb = "Completed" then "Completed"
      else "Partial" := by
  unfold overall_status pySub pyAbs pyLe pyLt
  simp only [decide_eq_true_eq, Bool.and_eq_true, beq_iff_eq]

/-- Claim C2: the overall reconciled status stored by ingestion is the pure
function `overall_status` of the two per-source statuses and the two
submitted figures; on numeric submissions that function is exactly the
specified ε = 0.01 decision chain, evaluated in the specified order; and
for submissions 40 and 30 the result is Mismatch whatever the two
per-source statuses are. -/
theorem c2_overall_status :
    (∀ (tdb : List TimeOff) (row : Row) (e : ReconEntry),
      processRow tdb row = RowStep.ok e →
      e.reconciled_status =
        overall_status e.status_cg e.status_citi e.submitted_hours_cg
          e.submitted_hours_citi) ∧
    (∀ (sa sb : String) (a b : ℚ),
      overall_status sa sb (PyFloat.q a) (PyFloat.q b) =
        if a ≤ 1 / 100 ∧ b ≤ 1 / 100 then "Not Completed"
        else if 1 / 100 < |a - b| then "Mismatch"
        else if sa = "Completed" ∧ sb = "Completed" then "Completed"
        else "Partial") ∧
    (∀ sa sb : String,
      overall_status sa sb (PyFloat.q 40) (PyFloat.q 30) = "Mismatch") := by
  refine ⟨?_, ?_, ?_⟩
  · intro tdb row e h
    obtain ⟨-, -, -, -, -, -, -, -, -, -, hrs, -⟩ := processRow_ok_spec h
    exact hrs
  · intro sa sb a b
    exact overall_status_q sa sb a b
  · intro sa sb
    rw [overall_status_q]
    rw [if_neg (by norm_num), if_pos (by rw [show |(40 : ℚ) - 30| = 10 by norm_num]; norm_num)]

/-- Witness for C2: a concretely ingested row, and the 40/30 instance. -/
theorem c2_witness :
    entC2.reconciled_status =
      overall_status entC2.status_cg entC2.status_citi
        entC2.submitted_hours_cg entC2.submitted_hours_citi ∧
    overall_status "Partial" "Completed" (PyFloat.q 40) (PyFloat.q 30) =
      "Mismatch" :=
  ⟨c2_overall_status.1 [] rowC2 entC2 (by with_unfolding_all decide),
   c2_overall_status.2.2 "Partial" "Completed"⟩

/-- Claim C3 (amended): on numeric inputs, `status_from` returns
Not Completed iff `submitted ≤ 0`, Partial iff `0 < submitted < expected`,
and Completed iff `submitted > 0 ∧ submitted ≥ expected` (the original
"Completed iff submitted ≥ expected" fails at `submitted = 0 = expected`);
the boundary cases for `expected > 0.01` hold as claimed. -/
theorem c3_status_from_characterisation :
    (∀ t s : ℚ,
      (status_from (PyFloat.q t) (PyFloat.q s) = "Not Completed" ↔ s ≤ 0) ∧
      (status_from (PyFloat.q t) (PyFloat.q s) = "Partial" ↔ 0 < s ∧ s < t) ∧
      (status_from (PyFloat.q t) (PyFloat.q s) = "Completed" ↔ 0 < s ∧ t ≤ s)) ∧
    (∀ t : ℚ, 1 / 100 < t →
      status_from (PyFloat.q t) (PyFloat.q t) = "Completed" ∧
      status_from (PyFloat.q t) (PyFloat.q (t - 1 / 100)) = "Partial" ∧
      status_from (PyFloat.q t) (PyFloat.q 0) = "Not Completed") := by
  constructor
  · intro t s
    rw [status_from_q]
    split_ifs with h1 h2
    · refine ⟨iff_of_true rfl h1, ?_, ?_⟩
      · refine iff_of_false (by decide) ?_
        rintro ⟨hs, -⟩
        linarith
      · refine iff_of_false (by decide) ?_
        rintro ⟨hs, -⟩
        linarith
    · push_neg at h1
      refine ⟨iff_of_false (by decide) (by linarith), ?_, ?_⟩
      · exact iff_of_true rfl ⟨h1, h2⟩
      · refine iff_of_false (by decide) ?_
        rintro ⟨-, hts⟩
        linarith
    · push_neg at h1 h2
      refine ⟨iff_of_false (by decide) (by linarith), ?_, ?_⟩
      · refine iff_of_false (by decide) ?_
        rintro ⟨-, hst⟩
        linarith
      · exact iff_of_true rfl ⟨h1, h2⟩
  · intro t ht
    rw [status_from_q, status_from_q, status_from_q]
    rw [if_neg (by linarith), if_neg (by linarith), if_neg (by linarith),
      if_pos (by linarith), if_pos (by linarith)]
    exact ⟨rfl, rfl, rfl⟩

/-- Claim C3 counterexample: at `expected = 0`, `submitted = 0` the code
returns Not Completed although `submitted ≥ expected`, so the claimed
"Completed iff submitted ≥ expected" fails in the ← direction. -/
theorem c3_counterexample :
    status_from (PyFloat.q 0) (PyFloat.q 0) = "Not Completed" ∧
    (0 : ℚ) ≤ 0 ∧ ("Not Completed" : String) ≠ "Completed" := by
  refine ⟨rfl, le_refl 0, by decide⟩

/-- Witness for C3 at `expected = 1`. -/
theorem c3_witness :
    status_from (PyFloat.q 1) (PyFloat.q 1) = "Completed" ∧
    status_from (PyFloat.q 1) (PyFloat.q (1 - 1 / 100)) = "Partial" ∧
    status_from (PyFloat.q 1) (PyFloat.q 0) = "Not Completed" :=
  c3_status_from_characterisation.2 1 (by norm_num)

/-- Claim C10: a merged row whose effective expected hours are 0 (approved
leave covers at least the whole month's working hours) and where both
sources submit the same hours `s > 0.01` is stored with per-source
statuses Completed, overall reconciled status Completed, and
`reconciled_hours = 0` — a record can be Completed with zero billable
hours. -/
theorem c10_completed_with_zero_hours (tdb : List TimeOff) (row : Row)
    (e : ReconEntry) (s : ℚ) (h : processRow tdb row = RowStep.ok e)
    (hexp : e.expected_hours = PyFloat.q 0)
    (hcg : e.submitted_hours_cg = PyFloat.q s)
    (hci : e.submitted_hours_citi = PyFloat.q s) (hs : 1 / 100 < s) :
    e.status_cg = "Completed" ∧ e.status_citi = "Completed" ∧
    e.reconciled_status = "Completed" ∧
    e.reconciled_hours = PyFloat.q 0 := by
  obtain ⟨-, -, -, -, -, -, -, hscg, hsci, hrec, hrs, -⟩ := processRow_ok_spec h
  have hstat_cg : e.status_cg = "Completed" := by
    rw [hscg, hexp, hcg, status_from_q, if_neg (by linarith), if_neg (by linarith)]
  have hstat_ci : e.status_citi = "Completed" := by
    rw [hsci, hexp, hci, status_from_q, if_neg (by linarith), if_neg (by linarith)]
  refine ⟨hstat_cg, hstat_ci, ?_, ?_⟩
  · rw [hrs, hcg, hci, overall_status_q, hstat_cg, hstat_ci]
    rw [if_neg (by rintro ⟨h1, -⟩; linarith),
      if_neg (by rw [sub_self, abs_zero]; norm_num), if_pos ⟨rfl, rfl⟩]
  · rw [hrec, hcg, hci, hexp, pyMin3_q]
    rw [min_self, min_eq_right (by linarith)]

/-- Witness for C10: leave covering all of Nov 2025 and 100 h submitted on
both sides. -/
theorem c10_witness :
    entC10.status_cg = "Completed" ∧ entC10.status_citi = "Completed" ∧
    entC10.reconciled_status = "Completed" ∧
    entC10.reconciled_hours = PyFloat.q 0 :=
  c10_completed_with_zero_hours tdbC10 rowC10 entC10 100
    (by with_unfolding_all decide) rfl rfl rfl (by norm_num)

/-! ## Claim C4 — expected hours for a month -/

theorem foldl_if_add_eight {α : Type} (p : α → Bool) (l : List α) :
    ∀ acc : ℕ, l.foldl (fun h a => if p a then h else h + 8) acc =
      acc + 8 * (l.filter (fun a => !p a)).length := by
  induction l with
  | nil => intro acc; simp
  | cons x xs ih =>
    intro acc
    simp only [List.foldl_cons, List.filter_cons]
    cases hp : p x
    · rw [if_neg (by simp), if_pos (by simp), ih (acc + 8)]
      simp only [List.length_cons]
      ring
    · rw [if_pos rfl, if_neg (by simp)]
      exact ih acc

theorem length_filter_split {α : Type} (p q : α → Bool) (l : List α) :
    (l.filter p).length =
      (l.filter (fun a => p a && q a)).length +
        (l.filter (fun a => p a && !q a)).length := by
  induction l with
  | nil => simp
  | cons x xs ih =>
    simp only [List.filter_cons]
    cases hp : p x <;> cases hq : q x <;> simp_all <;> omega

set_option maxRecDepth 8000 in
/-- Claim C4: `expectedHours(year, month, holidays)` is 8 × the number of
month days that are neither weekend nor parsed holidays; equivalently
(business days) × 8 − (holidays on business days) × 8; appending a
malformed token to the holiday CSV changes nothing (shown both
structurally on the token list and on a concrete CSV with a garbage
token). -/
theorem c4_expected_hours :
    (∀ (year month : ℕ) (csv : String),
      expected_hours_for_month year month csv =
        8 * (((monthDays year month).filter (fun d =>
          !is_weekend d && !(parseHolidays csv).contains d)).length : ℚ)) ∧
    (∀ (year month : ℕ) (csv : String),
      expected_hours_for_month year month csv =
        8 * (((monthDays year month).filter (fun d => !is_weekend d)).length : ℚ) -
        8 * (((monthDays year month).filter (fun d =>
          !is_weekend d && (parseHolidays csv).contains d)).length : ℚ)) ∧
    (∀ (toks : List String) (tok : String),
      date_fromisoformat (pyStrip tok) = none →
      holidaySetOfTokens (toks ++ [tok]) = holidaySetOfTokens toks) ∧
    expected_hours_for_month 2025 11 "2025-11-10, garbage, 2025-11-08" =
      expected_hours_for_month 2025 11 "2025-11-10,2025-11-08" := by
  have key : ∀ (year month : ℕ) (csv : String),
      expected_hours_for_month year month csv =
        8 * (((monthDays year month).filter (fun d =>
          !is_weekend d && !(parseHolidays csv).contains d)).length : ℚ) := by
    intro year month csv
    unfold expected_hours_for_month
    dsimp only
    rw [foldl_if_add_eight]
    have hfun : (fun d : CalDate => !(is_weekend d || (parseHolidays csv).contains d)) =
        fun d => !is_weekend d && !(parseHolidays csv).contains d :=
      funext fun d => by rw [Bool.not_or]
    rw [hfun]
    push_cast
    ring
  refine ⟨key, ?_, ?_, ?_⟩
  · intro year month csv
    rw [key year month csv]
    have hsplit := length_filter_split (fun d : CalDate => !is_weekend d)
      (fun d => (parseHolidays csv).contains d) (monthDays year month)
    simp only at hsplit
    rw [hsplit]
    push_cast
    ring
  · intro toks tok h
    unfold holidaySetOfTokens
    rw [List.foldl_append]
    simp only [List.foldl_cons, List.foldl_nil]
    split_ifs with ht
    · rfl
    · rw [h]
  · with_unfolding_all decide

/-- Witness for C4 at a concrete malformed token. -/
theorem c4_witness :
    holidaySetOfTokens ["2025-11-10", " garbage "] =
      holidaySetOfTokens ["2025-11-10"] :=
  c4_expected_hours.2.2.1 ["2025-11-10"] " garbage " (by with_unfolding_all decide)

/-! ## Claim C5 — approved leave hours for a month -/

theorem foldl_add_sum {α : Type} (f : α → ℚ) (l : List α) :
    ∀ acc : ℚ, l.foldl (fun a t => a + f t) acc = acc + (l.map f).sum := by
  induction l with
  | nil => intro acc; simp
  | cons x xs ih =>
    intro acc
    simp only [List.foldl_cons, List.map_cons, List.sum_cons]
    rw [ih]
    ring

/-- Claim C5: `approvedLeaveHours(email, year, month)` sums
`workingDaysOverlap × 8` over exactly the requests for that email with
status Approved whose `[start_date, end_date]` interval meets the month
(`start ≤ last_of_month ∧ first_of_month ≤ end`, which is interval
intersection for well-formed requests); non-Approved requests contribute
nothing; and one Approved request covering 3 working days inside Nov 2025
yields 24 h, so the effective expected drops from 160 to 136 and
submitting 136 on both sides is stored as Completed. -/
theorem c5_approved_leave :
    (∀ (tdb : List TimeOff) (email : String) (y m : ℕ), email ≠ "" →
      approved_timeoff_hours_for_month tdb email y m =
        ((tdb.filter (fun t => t.citi_email == email && t.status == "Approved" &&
            t.start_date.le (lastOfMonth y m) && (firstOfMonth y m).le t.end_date)).map
          (fun t => (working_days_overlap_in_month t.start_date t.end_date y m : ℚ)
            * 8)).sum) ∧
    (∀ (pre post : List TimeOff) (t : TimeOff) (email : String) (y m : ℕ),
      t.status ≠ "Approved" →
      approved_timeoff_hours_for_month (pre ++ t :: post) email y m =
        approved_timeoff_hours_for_month (pre ++ post) email y m) ∧
    (approved_timeoff_hours_for_month tdbC5 "w@citi" 2025 11 = 24 ∧
      expected_hours_for_month 2025 11 "" = 160 ∧
      processRow tdbC5 rowC5 = RowStep.ok entC5 ∧
      entC5.expected_hours = PyFloat.q 136 ∧ entC5.status_cg = "Completed" ∧
      entC5.status_citi = "Completed" ∧ entC5.reconciled_status = "Completed" ∧
      entC5.reconciled_hours = PyFloat.q 136) := by
  refine ⟨?_, ?_, ?_⟩
  · intro tdb email y m hemail
    unfold approved_timeoff_hours_for_month
    rw [if_neg hemail, foldl_add_sum, zero_add]
    rfl
  · intro pre post t email y m hst
    unfold approved_timeoff_hours_for_month
    split_ifs with he
    · rfl
    · have hpred : timeoffSelected email y m t = false := by
        unfold timeoffSelected
        simp [hst]
      rw [List.filter_append, List.filter_append, List.filter_cons_of_neg]
      simp [hpred]
  · with_unfolding_all decide

/-- Witness for C5: a Pending request contributes nothing, and the sum
formula at the concrete Approved request. -/
theorem c5_witness :
    approved_timeoff_hours_for_month [timeoffPending] "w@citi" 2025 11 =
      approved_timeoff_hours_for_month [] "w@citi" 2025 11 ∧
    approved_timeoff_hours_for_month tdbC5 "w@citi" 2025 11 =
      ((tdbC5.filter (fun t => t.citi_email == "w@citi" &&
          t.status == "Approved" && t.start_date.le (lastOfMonth 2025 11) &&
          (firstOfMonth 2025 11).le t.end_date)).map
        (fun t => (working_days_overlap_in_month t.start_date t.end_date 2025 11 : ℚ)
          * 8)).sum :=
  ⟨c5_approved_leave.2.1 [] [] timeoffPending "w@citi" 2025 11 (by decide),
   c5_approved_leave.1 tdbC5 "w@citi" 2025 11 (by decide)⟩

/-! ## Claim C7 — schema rejection and its write boundary -/

/-- Claim C7 (amended): a missing required sheet, or a missing `Citi Email`
column on a monthly sheet, aborts ingestion before any write (the database
is returned unchanged).  The daily sheets enjoy no such protection: a
missing daily `Citi Email` column raises no error at all (its rows are
silently skipped — third conjunct), and a missing daily `Date` column
raises only after the monthly records were committed (see the
counterexample). -/
theorem c7_rejection_before_writes :
    (∀ (wb : Workbook) (tdb : List TimeOff) (db : DBState),
      (∃ s ∈ requiredSheets, getSheet wb s = none) →
      ingest_workbook wb tdb db = (db, true)) ∧
    (∀ (wb : Workbook) (tdb : List TimeOff) (db : DBState) (cgS citiS : Sheet),
      getSheet wb "CG" = some cgS → getSheet wb "CITI" = some citiS →
      ((stripSheet cgS).cols.contains "Citi Email" = false ∨
        (stripSheet citiS).cols.contains "Citi Email" = false) →
      ingest_workbook wb tdb db = (db, true)) ∧
    (ingest_workbook wbNoDailyCE [] dbEmpty).2 = false ∧
    (ingest_workbook wbNoDailyCE [] dbEmpty).1.citi_daily = [] := by
  refine ⟨?_, ?_, ?_, ?_⟩
  · rintro wb tdb db ⟨s, hs, hnone⟩
    apply ingest_of_monthly_none
    unfold monthlyPhase
    rw [if_neg]
    intro hall
    rw [List.all_eq_true] at hall
    have h2 := hall s hs
    rw [hnone] at h2
    simp at h2
  · intro wb tdb db cgS citiS hcg hci hmiss
    apply ingest_of_monthly_none
    unfold monthlyPhase
    split_ifs with hall
    · rw [hcg, hci]
      dsimp only
      rw [if_neg]
      simp only [Bool.and_eq_true]
      rintro ⟨h1, h2⟩
      rcases hmiss with h | h <;> simp_all
    · rfl
  · with_unfolding_all decide
  · with_unfolding_all decide

/-- Claim C7 counterexample: all four sheets are present but `CG_DAILY`
lacks the required `Date` column: ingestion raises, yet the freshly built
monthly `ReconEntry` is already committed — the database state is *not*
unchanged. -/
theorem c7_counterexample :
    (ingest_workbook wbNoDate [] dbEmpty).2 = true ∧
    (ingest_workbook wbNoDate [] dbEmpty).1.recon.length = 1 ∧
    dbEmpty.recon.length = 0 := by
  with_unfolding_all decide

/-- Witness for C7 at a workbook missing `CITI` and one whose CG sheet
lacks `Citi Email`. -/
theorem c7_witness :
    ingest_workbook wbNoCITI [] dbEmpty = (dbEmpty, true) ∧
    ingest_workbook wbNoMonthlyCE [] dbEmpty = (dbEmpty, true) :=
  ⟨c7_rejection_before_writes.1 wbNoCITI [] dbEmpty
    ⟨"CITI", by decide, by decide⟩,
   c7_rejection_before_writes.2.1 wbNoMonthlyCE [] dbEmpty
    ⟨["Month"], []⟩ ⟨["Citi Email", "Month"], []⟩ rfl rfl
    (Or.inl (by decide))⟩

/-! ## Claim C8 — annual billing projection -/

theorem roundHalfEven_intCast (n : ℤ) : roundHalfEven (n : ℚ) = n := by
  unfold roundHalfEven
  dsimp only
  rw [Int.floor_intCast, sub_self, if_pos (by norm_num)]

/-- `round(x, 2)` is the identity on exact multiples of 1/100. -/
theorem pyRound2_hundredth (k : ℤ) : pyRound2 ((k : ℚ) / 100) = (k : ℚ) / 100 := by
  unfold pyRound2
  rw [show ((k : ℚ) / 100 * 100) = (k : ℚ) by field_simp, roundHalfEven_intCast]

theorem listSum_map_range (f : ℕ → ℚ) (n : ℕ) :
    ((List.range n).map f).sum = ∑ i ∈ Finset.range n, f i := by
  induction n with
  | zero => simp
  | succ k ih =>
    rw [List.range_succ, Finset.sum_range_succ, List.map_append,
      List.sum_append, ih]
    simp

/-- With `xs = 0..n-1` and `n ≥ 2`, the OLS denominator is positive: the
degenerate fallback branch of the projection is actually unreachable. -/
theorem olsDenom_pos (ys : List ℚ) (h : 2 ≤ ys.length) : 0 < olsDenom ys := by
  unfold olsDenom olsXs
  rw [List.map_map, listSum_map_range]
  simp only [Function.comp_apply]
  set xm := olsXMean ys.length
  have hsub : ({0, 1} : Finset ℕ) ⊆ Finset.range ys.length := by
    intro x hx
    rw [Finset.mem_insert, Finset.mem_singleton] at hx
    rw [Finset.mem_range]
    omega
  have hpair : ∑ i ∈ ({0, 1} : Finset ℕ), ((i : ℚ) - xm) ^ 2 =
      ((0 : ℚ) - xm) ^ 2 + ((1 : ℚ) - xm) ^ 2 := by
    rw [Finset.sum_pair (by omega)]
    norm_num
  have hpos : (0 : ℚ) < ((0 : ℚ) - xm) ^ 2 + ((1 : ℚ) - xm) ^ 2 := by
    nlinarith [sq_nonneg (xm - 1 / 2)]
  calc (0 : ℚ) < ((0 : ℚ) - xm) ^ 2 + ((1 : ℚ) - xm) ^ 2 := hpos
    _ = ∑ i ∈ ({0, 1} : Finset ℕ), ((i : ℚ) - xm) ^ 2 := hpair.symm
    _ ≤ ∑ i ∈ Finset.range ys.length, ((i : ℚ) - xm) ^ 2 :=
      Finset.sum_le_sum_of_subset_of_nonneg hsub
        (fun i _ _ => sq_nonneg _)

set_option maxRecDepth 8000 in
/-- Claim C8 (amended): with fewer than 2 months the projection is
`round(monthly_total × 12, 2)` — exactly `monthly_total × 12` whenever the
total is (as the billing query's totals are) a 2-decimal value; with ≥ 2
months the OLS denominator is positive and the projection is the
12-forecast clamped sum *rounded to 2 decimals* (the rounding is what the
original claim omits); for `[100, 110, 120]` slope 10, intercept 100,
projection Σ(100 + 10·(3+i)) = 2220. -/
theorem c8_annual_projection :
    (∀ (mt : ℚ) (ys : List ℚ), ys.length < 2 →
      annual_projection mt ys = pyRound2 (mt * 12)) ∧
    (∀ (k : ℤ) (ys : List ℚ), ys.length < 2 →
      annual_projection ((k : ℚ) / 100) ys = (k : ℚ) / 100 * 12) ∧
    (∀ ys : List ℚ, 2 ≤ ys.length → 0 < olsDenom ys) ∧
    (∀ (mt : ℚ) (ys : List ℚ), 2 ≤ ys.length →
      annual_projection mt ys = pyRound2 (olsForecastSum ys)) ∧
    (olsSlope [100, 110, 120] = 10 ∧ olsIntercept [100, 110, 120] = 100 ∧
      annual_projection 0 [100, 110, 120] = 2220 ∧
      olsForecastSum [100, 110, 120] = 2220) := by
  refine ⟨?_, ?_, olsDenom_pos, ?_, ?_⟩
  · intro mt ys h
    unfold annual_projection
    rw [if_neg (by omega)]
  · intro k ys h
    unfold annual_projection
    rw [if_neg (by omega)]
    rw [show ((k : ℚ) / 100 * 12) = ((12 * k : ℤ) : ℚ) / 100 by push_cast; ring,
      pyRound2_hundredth]
  · intro mt ys h
    unfold annual_projection
    rw [if_pos h]
    rw [if_pos (olsDenom_pos ys h)]
  · with_unfolding_all decide

set_option maxRecDepth 8000 in
/-- Claim C8 counterexample: for the month-total series `[0, 0.0001]` the
stored projection is the rounded value 0.01, while the claimed clamped
OLS sum is 0.009 — the projection does not equal the unrounded sum. -/
theorem c8_counterexample :
    annual_projection 0 [0, 1 / 10000] = 1 / 100 ∧
    olsForecastSum [0, 1 / 10000] = 9 / 1000 ∧
    (1 / 100 : ℚ) ≠ 9 / 1000 := by
  with_unfolding_all decide

set_option maxRecDepth 8000 in
/-- Witness for C8 applying each guarded branch at concrete inputs. -/
theorem c8_witness :
    annual_projection 5 [] = pyRound2 (5 * 12) ∧
    annual_projection (((700 : ℤ) : ℚ) / 100) [7] = ((700 : ℤ) : ℚ) / 100 * 12 ∧
    (0 : ℚ) < olsDenom [100, 110, 120] ∧
    annual_projection 0 [100, 110, 120] = pyRound2 (olsForecastSum [100, 110, 120]) :=
  ⟨c8_annual_projection.1 5 [] (by decide),
   c8_annual_projection.2.1 700 [7] (by decide),
   c8_annual_projection.2.2.1 [100, 110, 120] (by decide),
   c8_annual_projection.2.2.2.1 0 [100, 110, 120] (by decide)⟩

/-! ## Claim C9 — the reminder ledger -/

/-- The reminder selection never reads the counter it bumps. -/
theorem reminderTargeted_bump (ym : String) (ids : Option (List String))
    (e : ReconEntry) :
    reminderTargeted ym ids (bumpReminders e) = reminderTargeted ym ids e := rfl

/-- With a non-empty target list the selection is the id/email filter. -/
theorem reminderTargeted_some_ne_nil (ym : String) (l : List String)
    (hl : l ≠ []) (e : ReconEntry) :
    reminderTargeted ym (some l) e =
      (e.month == ym &&
        (l.contains e.employee_id || l.contains e.citi_email)) := by
  cases l with
  | nil => exact absurd rfl hl
  | cons a as => rfl

/-- Claim C9 (amended): `triggerReminders(month, targetIds)` bumps the
reminder counter by exactly 1 on the records of that month selected by the
id/email set when `targetIds` is a *non-empty* list, and on the records of
that month with non-compliant status when `targetIds` is `None` — *or the
empty list*, which Python truthiness sends to the status branch (the
original claim's reading of "targetIds given" fails there, see the
counterexample); it changes no other field, returns the number of records
bumped, and applying it twice with no intervening change bumps each
selected counter by exactly 2 and returns the same count. -/
theorem c9_trigger_reminders :
    (∀ (rs : List ReconEntry) (ym : String) (l : List String), l ≠ [] →
      trigger_reminders_for_month rs ym (some l) =
        (rs.map (fun e =>
          if e.month = ym ∧ (e.employee_id ∈ l ∨ e.citi_email ∈ l)
          then bumpReminders e else e),
         (rs.filter (fun e => e.month == ym &&
           (l.contains e.employee_id || l.contains e.citi_email))).length)) ∧
    (∀ (rs : List ReconEntry) (ym : String),
      trigger_reminders_for_month rs ym none =
        (rs.map (fun e =>
          if e.month = ym ∧ e.reconciled_status ∈ reminderStatuses
          then bumpReminders e else e),
         (rs.filter (fun e => e.month == ym && statusTargeted e)).length)) ∧
    (∀ (rs : List ReconEntry) (ym : String),
      trigger_reminders_for_month rs ym (some []) =
        trigger_reminders_for_month rs ym none) ∧
    (∀ (rs : List ReconEntry) (ym : String) (ids : Option (List String)),
      trigger_reminders_for_month (trigger_reminders_for_month rs ym ids).1 ym ids =
        (rs.map (fun e => if reminderTargeted ym ids e
            then { e with reminders := e.reminders + 2 } else e),
         (trigger_reminders_for_month rs ym ids).2)) := by
  have hbump2 : ∀ e : ReconEntry,
      bumpReminders (bumpReminders e) = { e with reminders := e.reminders + 2 } := by
    intro e
    rfl
  refine ⟨?_, ?_, ?_, ?_⟩
  · intro rs ym l hl
    unfold trigger_reminders_for_month
    refine Prod.ext ?_ ?_
    · apply List.map_congr_left
      intro e _
      rw [reminderTargeted_some_ne_nil ym l hl e]
      by_cases hc : e.month = ym ∧ (e.employee_id ∈ l ∨ e.citi_email ∈ l)
      · rw [if_pos hc, if_pos (by simpa using hc)]
      · rw [if_neg hc, if_neg (by simpa using hc)]
    · apply congrArg List.length
      apply List.filter_congr
      intro e _
      rw [reminderTargeted_some_ne_nil ym l hl e]
  · intro rs ym
    unfold trigger_reminders_for_month
    refine Prod.ext ?_ ?_
    · apply List.map_congr_left
      intro e _
      by_cases hc : e.month = ym ∧ e.reconciled_status ∈ reminderStatuses
      · rw [if_pos hc, if_pos (by simpa [reminderTargeted, statusTargeted] using hc)]
      · rw [if_neg hc, if_neg (by simpa [reminderTargeted, statusTargeted] using hc)]
    · apply congrArg List.length
      apply List.filter_congr
      intro e _
      rfl
  · intro rs ym
    rfl
  · intro rs ym ids
    unfold trigger_reminders_for_month
    refine Prod.ext ?_ ?_
    · rw [List.map_map]
      apply List.map_congr_left
      intro e _
      simp only [Function.comp_apply]
      by_cases hc : reminderTargeted ym ids e = true
      · rw [if_pos hc, if_pos (by rw [reminderTargeted_bump]; exact hc), if_pos hc,
          hbump2]
      · rw [if_neg hc, if_neg hc, if_neg hc]
    · rw [List.filter_map, List.length_map]
      apply congrArg List.length
      apply List.filter_congr
      intro e _
      simp only [Function.comp_apply]
      by_cases hc : reminderTargeted ym ids e = true
      · rw [if_pos hc, reminderTargeted_bump, hc]
      · rw [if_neg hc]

/-- Claim C9 counterexample: with `targetIds` given as the *empty* list,
the code falls into the status branch and bumps the Mismatch record
although nothing is a member of the empty target set — under the claim's
reading zero records should have been touched. -/
theorem c9_counterexample :
    (trigger_reminders_for_month [entC9] "2025-11" (some [])).2 = 1 ∧
    (trigger_reminders_for_month [entC9] "2025-11" (some [])).1 =
      [{ entC9 with reminders := 1 }] ∧
    ¬ (entC9.employee_id ∈ ([] : List String) ∨
       entC9.citi_email ∈ ([] : List String)) := by
  refine ⟨rfl, rfl, by simp⟩

/-- Witness for C9 at a singleton target list hitting the record's id. -/
theorem c9_witness :
    trigger_reminders_for_month [entC9] "2025-11" (some ["E1"]) =
      ([entC9].map (fun e =>
        if e.month = "2025-11" ∧ (e.employee_id ∈ ["E1"] ∨ e.citi_email ∈ ["E1"])
        then bumpReminders e else e),
       ([entC9].filter (fun e => e.month == "2025-11" &&
         (["E1"].contains e.employee_id || ["E1"].contains e.citi_email))).length) :=
  c9_trigger_reminders.1 [entC9] "2025-11" ["E1"] (by decide)
